import Mathlib

/-!
Shallow embedding of the ROTZ-Coder repository (Python/Streamlit application)
for checking its natural-language specification.

Database tables are modelled as lists of row structures; SQLAlchemy sessions
become explicit state passing (a function takes the table and returns the
updated table).  External libraries that are not part of the repository
(bcrypt, pyotp, the jwt signer) are passed in as function parameters, since
the repository only calls them.  Python truthiness tests on optional strings
(`if user.totp_secret:`) are modelled by `pyTruthy`.
-/

/-- Python truthiness of an optional string: `None` and `""` are falsy. -/
def pyTruthy : Option String → Bool
  | none => false
  | some s => s != ""

/-- Update the first element of a list satisfying `p` by `f`; models an
ORM mutation of the row returned by `query(...).first()`. -/
def updateFirst (p : α → Bool) (f : α → α) : List α → List α
  | [] => []
  | x :: xs => if p x then f x :: xs else x :: updateFirst p f xs

theorem find?_updateFirst (p : α → Bool) (f : α → α) (l : List α) (x : α)
    (h : l.find? p = some x) (hf : p (f x) = true) :
    (updateFirst p f l).find? p = some (f x) := by
  induction l with
  | nil => simp at h
  | cons a l ih =>
    by_cases hp : p a
    · simp [List.find?, hp] at h
      subst h
      simp [updateFirst, hp, List.find?, hf]
    · rw [Bool.not_eq_true] at hp
      simp [List.find?, hp] at h
      simp [updateFirst, hp, List.find?]
      exact ih h

/-! ## `src/auth/authentication.py`: users, authentication, registration -/

/-- A row of the `users` table (`src/database/models.py`, class `User`). -/
structure UserRow where
  id : Nat
  email : String
  password_hash : String
  full_name : String
  is_admin : Bool
  is_super_admin : Bool
  totp_secret : Option String
deriving DecidableEq

/-- The payload that `generate_jwt_token` signs (the signature itself is the
external `jwt` library; the repository only chooses the payload). -/
structure JwtToken where
  user_id : Nat
  email : String
  is_admin : Bool
  is_super_admin : Bool
deriving DecidableEq

/-- `generate_jwt_token` from `src/auth/authentication.py`. -/
def generate_jwt_token (user_id : Nat) (email : String)
    (is_admin is_super_admin : Bool) : JwtToken :=
  ⟨user_id, email, is_admin, is_super_admin⟩

/-- Result of `authenticate_user`: `None`, the `{"requires_totp": True,
"user_id": ...}` marker dict, or the full success dict. -/
inductive AuthResult where
  | absent
  | totpRequired (user_id : Nat)
  | success (user_id : Nat) (email : String) (full_name : String)
      (is_admin : Bool) (is_super_admin : Bool) (token : JwtToken)
deriving DecidableEq

/-- `session.query(User).filter_by(email=email).first()`. -/
def findUserByEmail (db : List UserRow) (email : String) : Option UserRow :=
  db.find? (fun u => u.email == email)

/-- `authenticate_user` from `src/auth/authentication.py` (lines 149-192).
`verify_password` models bcrypt `checkpw`, `verify_totp` models
`pyotp.TOTP(...).verify`; both are external libraries and thus parameters. -/
def authenticate_user (db : List UserRow)
    (verify_password : String → String → Bool)
    (verify_totp : String → String → Bool)
    (email password : String) (totp_code : Option String) : AuthResult :=
  match findUserByEmail db email with
  | none => .absent
  | some user =>
    if !(verify_password password user.password_hash) then .absent
    else if pyTruthy user.totp_secret then
      if !(pyTruthy totp_code) then .totpRequired user.id
      else if !(verify_totp (user.totp_secret.getD "") (totp_code.getD "")) then .absent
      else .success user.id user.email user.full_name user.is_admin user.is_super_admin
        (generate_jwt_token user.id user.email user.is_admin user.is_super_admin)
    else .success user.id user.email user.full_name user.is_admin user.is_super_admin
      (generate_jwt_token user.id user.email user.is_admin user.is_super_admin)

/-- The success dict returned by `register_user`. -/
structure RegisterResult where
  user_id : Nat
  email : String
  full_name : String
  requires_totp_setup : Bool
deriving DecidableEq

/-- `register_user` from `src/auth/authentication.py` (lines 195-238).
`nextId` is the id the database would assign to the inserted row;
`hash_password` models bcrypt hashing (external). -/
def register_user (db : List UserRow) (nextId : Nat)
    (hash_password : String → String)
    (email password full_name : String) : List UserRow × Option RegisterResult :=
  match findUserByEmail db email with
  | some _ => (db, none)
  | none =>
    let base : UserRow :=
      { id := nextId, email := email, password_hash := hash_password password,
        full_name := full_name, is_admin := false, is_super_admin := false,
        totp_secret := none }
    let new_user :=
      if email = "jerome@rotz.host" then
        { base with is_admin := true, is_super_admin := true }
      else base
    (db ++ [new_user], some ⟨nextId, email, full_name, true⟩)

/-! ## Theorems for claims C1 and C2 -/

/-- C1: `authenticate_user` returns absent when no user row has the email or
the password does not verify; returns the distinguishable TOTP-required
marker carrying the user id when the matched user has a (truthy) TOTP secret
and no code was supplied; returns absent when the supplied code is wrong; and
returns the full bundle (id, email, full name, both admin flags, signed
token) exactly when the password and, if configured, the TOTP code verify. -/
theorem C1_authenticate_user_cases (db : List UserRow)
    (vp vt : String → String → Bool) (email password : String)
    (code : Option String) :
    ((∀ u ∈ db, u.email ≠ email) →
      authenticate_user db vp vt email password code = .absent)
    ∧ (∀ u, findUserByEmail db email = some u →
      (vp password u.password_hash = false →
        authenticate_user db vp vt email password code = .absent)
      ∧ (vp password u.password_hash = true → pyTruthy u.totp_secret = true →
          pyTruthy code = false →
          authenticate_user db vp vt email password code = .totpRequired u.id)
      ∧ (vp password u.password_hash = true → pyTruthy u.totp_secret = true →
          pyTruthy code = true →
          vt (u.totp_secret.getD "") (code.getD "") = false →
          authenticate_user db vp vt email password code = .absent)
      ∧ (authenticate_user db vp vt email password code =
            .success u.id u.email u.full_name u.is_admin u.is_super_admin
              (generate_jwt_token u.id u.email u.is_admin u.is_super_admin)
          ↔ vp password u.password_hash = true
            ∧ (pyTruthy u.totp_secret = true →
                pyTruthy code = true
                ∧ vt (u.totp_secret.getD "") (code.getD "") = true))) := by
  constructor
  · intro h
    have hnone : findUserByEmail db email = none := by
      apply List.find?_eq_none.mpr
      intro x hx
      simpa using h x hx
    simp [authenticate_user, hnone]
  · intro u hu
    refine ⟨?_, ?_, ?_, ?_⟩
    · intro hvp
      simp [authenticate_user, hu, hvp]
    · intro hvp hts hcode
      simp [authenticate_user, hu, hvp, hts, hcode]
    · intro hvp hts hcode hvt
      simp [authenticate_user, hu, hvp, hts, hcode, hvt]
    · constructor
      · intro hsucc
        by_cases hvp : vp password u.password_hash
        · refine ⟨hvp, ?_⟩
          intro hts
          by_cases hc : pyTruthy code
          · refine ⟨hc, ?_⟩
            by_cases hv : vt (u.totp_secret.getD "") (code.getD "")
            · exact hv
            · rw [Bool.not_eq_true] at hv
              simp [authenticate_user, hu, hvp, hts, hc, hv] at hsucc
          · rw [Bool.not_eq_true] at hc
            simp [authenticate_user, hu, hvp, hts, hc] at hsucc
        · rw [Bool.not_eq_true] at hvp
          simp [authenticate_user, hu, hvp] at hsucc
      · rintro ⟨hvp, hts⟩
        by_cases h2 : pyTruthy u.totp_secret
        · obtain ⟨hc, hv⟩ := hts h2
          simp [authenticate_user, hu, hvp, h2, hc, hv]
        · simp [authenticate_user, hu, hvp, h2]

/-- Witness for C1 at a concrete database: a user with a TOTP secret and no
supplied code gets the TOTP-required marker carrying their id. -/
theorem C1_witness :
    authenticate_user
      [⟨7, "a@b.c", "hash-pw", "Ann", false, false, some "SECRET"⟩]
      (fun p h => h == "hash-" ++ p) (fun s c => s == "SECRET" && c == "123456")
      "a@b.c" "pw" none = .totpRequired 7 := by
  have h := (C1_authenticate_user_cases
      [⟨7, "a@b.c", "hash-pw", "Ann", false, false, some "SECRET"⟩]
      (fun p h => h == "hash-" ++ p) (fun s c => s == "SECRET" && c == "123456")
      "a@b.c" "pw" none).2
      ⟨7, "a@b.c", "hash-pw", "Ann", false, false, some "SECRET"⟩ (by rfl)
  exact h.2.1 (by rfl) (by rfl) (by rfl)

/-- C2: `register_user` with an existing email returns absent and adds no
row; otherwise it appends exactly one user whose admin flags are both false,
except for the fixed email `jerome@rotz.host` which gets both flags true, and
returns a bundle carrying the requires-TOTP-setup marker. -/
theorem C2_register_user_cases (db : List UserRow) (nextId : Nat)
    (hp : String → String) (email password full_name : String) :
    (∀ u, findUserByEmail db email = some u →
      register_user db nextId hp email password full_name = (db, none))
    ∧ (findUserByEmail db email = none →
      ∃ nu : UserRow,
        (register_user db nextId hp email password full_name).1 = db ++ [nu]
        ∧ nu.email = email
        ∧ (email ≠ "jerome@rotz.host" →
            nu.is_admin = false ∧ nu.is_super_admin = false)
        ∧ (email = "jerome@rotz.host" →
            nu.is_admin = true ∧ nu.is_super_admin = true)
        ∧ (register_user db nextId hp email password full_name).2 =
            some ⟨nextId, email, full_name, true⟩) := by
  constructor
  · intro u hu
    simp [register_user, hu]
  · intro hnone
    by_cases hj : email = "jerome@rotz.host"
    · subst hj
      refine ⟨⟨nextId, "jerome@rotz.host", hp password, full_name, true, true, none⟩,
        ?_, rfl, ?_, ?_, ?_⟩
      · simp [register_user, hnone]
      · intro h; exact absurd rfl h
      · intro _; exact ⟨rfl, rfl⟩
      · simp [register_user, hnone]
    · refine ⟨⟨nextId, email, hp password, full_name, false, false, none⟩,
        ?_, rfl, ?_, ?_, ?_⟩
      · simp [register_user, hnone, hj]
      · intro _; exact ⟨rfl, rfl⟩
      · intro h; exact absurd h hj
      · simp [register_user, hnone]

/-- Witness for C2 at a concrete database: registering the fixed super-admin
email on an empty table creates a user with both flags true. -/
theorem C2_witness :
    ∃ nu : UserRow,
      (register_user [] 1 (fun p => "h-" ++ p) "jerome@rotz.host" "pw" "J").1 = [] ++ [nu]
      ∧ nu.is_admin = true ∧ nu.is_super_admin = true := by
  obtain ⟨nu, h1, _, _, h4, _⟩ :=
    (C2_register_user_cases [] 1 (fun p => "h-" ++ p) "jerome@rotz.host" "pw" "J").2 rfl
  exact ⟨nu, h1, h4 rfl⟩

/-! ## `src/auth/encryption.py`: API key format validation -/

/-- Python `str.lower()`, modelled character-wise (only ASCII provider names
are involved). -/
def strLower (s : String) : String := String.mk (s.data.map Char.toLower)

/-- Python `str.startswith(pre)`. -/
def strStartsWith (s pre : String) : Bool := s.data.take pre.data.length == pre.data

/-- The providers whose keys only need length > 20 (the non-prefix entries of
the `validations` dict in `validate_api_key_format`). -/
def longKeyProviders : List String :=
  ["brave", "deepseek", "gemini", "openrouter", "qwen", "grok"]

/-- `validate_api_key_format` from `src/auth/encryption.py` (lines 98-129). -/
def validate_api_key_format (api_key provider : String) : Bool :=
  if api_key.length < 10 then false
  else
    let p := strLower provider
    if p = "openai" then strStartsWith api_key "sk-" && decide (api_key.length > 20)
    else if p = "anthropic" then strStartsWith api_key "sk-ant-" && decide (api_key.length > 20)
    else if p ∈ longKeyProviders then decide (api_key.length > 20)
    else decide (api_key.length > 10)

theorem validate_long_provider (key provider : String)
    (h1 : strLower provider ≠ "openai") (h2 : strLower provider ≠ "anthropic")
    (h3 : strLower provider ∈ longKeyProviders) :
    (validate_api_key_format key provider = true ↔ key.length > 20) := by
  by_cases h10 : key.length < 10
  · simp [validate_api_key_format, h10]
    omega
  · simp [validate_api_key_format, h10, h1, h2, h3]

/-- C3: `validate_api_key_format` rejects keys shorter than 10 for every
provider; for `openai` accepts exactly prefix `sk-` with length > 20; for
`anthropic` exactly prefix `sk-ant-` with length > 20; for the six
no-prefix providers exactly length > 20; and for any other provider
(one whose lowercasing is not a key of the validations dict) exactly
length > 10. -/
theorem C3_validate_api_key_format (key provider : String) :
    (key.length < 10 → validate_api_key_format key provider = false)
    ∧ (provider = "openai" →
        (validate_api_key_format key provider = true ↔
          strStartsWith key "sk-" = true ∧ key.length > 20))
    ∧ (provider = "anthropic" →
        (validate_api_key_format key provider = true ↔
          strStartsWith key "sk-ant-" = true ∧ key.length > 20))
    ∧ (provider ∈ longKeyProviders →
        (validate_api_key_format key provider = true ↔ key.length > 20))
    ∧ (strLower provider ∉ "openai" :: "anthropic" :: longKeyProviders →
        (validate_api_key_format key provider = true ↔ key.length > 10)) := by
  refine ⟨?_, ?_, ?_, ?_, ?_⟩
  · intro h
    simp [validate_api_key_format, h]
  · intro h
    subst h
    by_cases h10 : key.length < 10
    · simp [validate_api_key_format, h10]
      intro _
      omega
    · simp [validate_api_key_format, h10,
        show strLower "openai" = "openai" from by decide]
  · intro h
    subst h
    by_cases h10 : key.length < 10
    · simp [validate_api_key_format, h10]
      intro _
      omega
    · simp [validate_api_key_format, h10,
        show strLower "anthropic" = "anthropic" from by decide,
        show ("anthropic" : String) ≠ "openai" from by decide]
  · intro hmem
    fin_cases hmem <;>
      exact validate_long_provider key _ (by decide) (by decide) (by decide)
  · intro hnot
    simp only [List.mem_cons, not_or] at hnot
    obtain ⟨hn1, hn2, hn3⟩ := hnot
    by_cases h10 : key.length < 10
    · simp [validate_api_key_format, h10]
      omega
    · simp [validate_api_key_format, h10, hn1, hn2,
        show ¬ strLower provider ∈ longKeyProviders from hn3]

/-- Witness for C3: the spec example key is accepted for `openai`. -/
theorem C3_witness :
    validate_api_key_format "sk-abcdefghijklmnopqrstuvwxyz" "openai" = true :=
  ((C3_validate_api_key_format "sk-abcdefghijklmnopqrstuvwxyz" "openai").2.1 rfl).mpr
    ⟨by decide, by decide⟩

/-! ## `src/utils/database.py`: user admin status -/

/-- `update_user_admin_status` from `src/utils/database.py` (lines 161-184):
refuses to touch the fixed super-admin email, otherwise sets `is_admin` on
the row found by id and reports success. -/
def update_user_admin_status (db : List UserRow) (user_id : Nat)
    (is_admin : Bool) : List UserRow × Bool :=
  match db.find? (fun u => u.id == user_id) with
  | none => (db, false)
  | some u =>
    if u.email ≠ "jerome@rotz.host" then
      (updateFirst (fun v => v.id == user_id)
        (fun v => { v with is_admin := is_admin }) db, true)
    else (db, false)

/-- C5: on the user whose email is the fixed super-admin address the update
returns failure and leaves the whole table (hence every field of that user)
unchanged, for every requested flag value; on any other existing user it
sets `is_admin` to the requested value and returns success. -/
theorem C5_update_user_admin_status (db : List UserRow) (uid : Nat) (b : Bool)
    (u : UserRow) (h : db.find? (fun v => v.id == uid) = some u) :
    (u.email = "jerome@rotz.host" →
      update_user_admin_status db uid b = (db, false))
    ∧ (u.email ≠ "jerome@rotz.host" →
        update_user_admin_status db uid b
          = (updateFirst (fun v => v.id == uid)
              (fun v => { v with is_admin := b }) db, true)
        ∧ (update_user_admin_status db uid b).1.find? (fun v => v.id == uid)
            = some { u with is_admin := b }) := by
  constructor
  · intro he
    simp [update_user_admin_status, h, he]
  · intro he
    have h1 : update_user_admin_status db uid b
        = (updateFirst (fun v => v.id == uid)
            (fun v => { v with is_admin := b }) db, true) := by
      simp [update_user_admin_status, h, he]
    refine ⟨h1, ?_⟩
    rw [h1]
    have hpu : (u.id == uid) = true := by simpa using List.find?_some h
    exact find?_updateFirst _ _ db u h hpu

/-- Witness for C5: requesting `is_admin := false` on the super-admin row
fails and leaves the table unchanged. -/
theorem C5_witness :
    update_user_admin_status
      [⟨1, "jerome@rotz.host", "h", "J", true, true, none⟩,
       ⟨2, "x@y.z", "h2", "X", false, false, none⟩] 1 false
      = ([⟨1, "jerome@rotz.host", "h", "J", true, true, none⟩,
          ⟨2, "x@y.z", "h2", "X", false, false, none⟩], false) :=
  (C5_update_user_admin_status _ 1 false
    ⟨1, "jerome@rotz.host", "h", "J", true, true, none⟩ (by rfl)).1 rfl

/-! ## `src/database/models.py` and `src/utils/database.py`: LLM configurations -/

/-- The JSON `parameters` payload of an LLM configuration; every seed row
stores exactly a temperature and a max_tokens (decimal temperatures become
exact rationals). -/
structure LLMParams where
  temperature : ℚ
  max_tokens : Nat
deriving DecidableEq

/-- A row of the `llm_configurations` table (`src/database/models.py`,
class `LLMConfiguration`). -/
structure LLMConfigRow where
  id : Nat
  provider : String
  model_name : String
  task_type : String
  priority : Nat
  parameters : LLMParams
  is_active : Bool
  created_by : Nat
deriving DecidableEq

/-- `filter_by(provider=..., model_name=..., task_type=...)`. -/
def tripleMatches (provider model_name task_type : String)
    (r : LLMConfigRow) : Bool :=
  r.provider == provider && r.model_name == model_name && r.task_type == task_type

/-- One entry of the `default_configs` list in `init_default_llm_configs`. -/
structure SeedConfig where
  provider : String
  model_name : String
  task_type : String
  priority : Nat
  parameters : LLMParams
deriving DecidableEq

/-- The nine fixed seed rows of `init_default_llm_configs`
(`src/database/models.py` lines 326-397). -/
def default_configs : List SeedConfig :=
  [⟨"openai", "gpt-4-turbo-preview", "code_generation", 1, ⟨7/10, 4000⟩⟩,
   ⟨"openai", "gpt-3.5-turbo", "general_query", 2, ⟨5/10, 2000⟩⟩,
   ⟨"anthropic", "claude-3-opus-20240229", "document_analysis", 1, ⟨3/10, 4000⟩⟩,
   ⟨"anthropic", "claude-3-sonnet-20240229", "code_review", 1, ⟨2/10, 3000⟩⟩,
   ⟨"deepseek", "deepseek-coder-33b", "code_generation", 2, ⟨5/10, 3000⟩⟩,
   ⟨"gemini", "gemini-pro", "multimodal_analysis", 1, ⟨4/10, 3000⟩⟩,
   ⟨"openrouter", "meta-llama/llama-2-70b-chat", "general_query", 3, ⟨6/10, 2000⟩⟩,
   ⟨"qwen", "qwen-72b-chat", "multilingual_processing", 1, ⟨5/10, 3000⟩⟩,
   ⟨"grok", "grok-1", "reasoning", 1, ⟨4/10, 3000⟩⟩]

/-- The loop body of `init_default_llm_configs`, recursing over the
remaining seed configurations. -/
def initConfigsAux (admin_id : Nat) :
    List SeedConfig → List LLMConfigRow → Nat → List LLMConfigRow × Nat
  | [], db, nextId => (db, nextId)
  | c :: cs, db, nextId =>
    if (db.find? (tripleMatches c.provider c.model_name c.task_type)).isSome then
      initConfigsAux admin_id cs db nextId
    else
      initConfigsAux admin_id cs
        (db ++ [⟨nextId, c.provider, c.model_name, c.task_type,
          c.priority, c.parameters, true, admin_id⟩]) (nextId + 1)

/-- `init_default_llm_configs` from `src/database/models.py` (lines 318-419):
insert each seed row unless a row with the same (provider, model_name,
task_type) triple already exists.  `nextId` is the next autoincrement id. -/
def init_default_llm_configs (db : List LLMConfigRow) (nextId admin_id : Nat) :
    List LLMConfigRow × Nat :=
  initConfigsAux admin_id default_configs db nextId

/-- The explicit result of seeding an empty table: nine rows with
consecutive ids. -/
def seedRows (n a : Nat) : List LLMConfigRow :=
  [⟨n, "openai", "gpt-4-turbo-preview", "code_generation", 1, ⟨7/10, 4000⟩, true, a⟩,
   ⟨n+1, "openai", "gpt-3.5-turbo", "general_query", 2, ⟨5/10, 2000⟩, true, a⟩,
   ⟨n+2, "anthropic", "claude-3-opus-20240229", "document_analysis", 1, ⟨3/10, 4000⟩, true, a⟩,
   ⟨n+3, "anthropic", "claude-3-sonnet-20240229", "code_review", 1, ⟨2/10, 3000⟩, true, a⟩,
   ⟨n+4, "deepseek", "deepseek-coder-33b", "code_generation", 2, ⟨5/10, 3000⟩, true, a⟩,
   ⟨n+5, "gemini", "gemini-pro", "multimodal_analysis", 1, ⟨4/10, 3000⟩, true, a⟩,
   ⟨n+6, "openrouter", "meta-llama/llama-2-70b-chat", "general_query", 3, ⟨6/10, 2000⟩, true, a⟩,
   ⟨n+7, "qwen", "qwen-72b-chat", "multilingual_processing", 1, ⟨5/10, 3000⟩, true, a⟩,
   ⟨n+8, "grok", "grok-1", "reasoning", 1, ⟨4/10, 3000⟩, true, a⟩]

/-- The (provider, model_name, task_type) identity of a configuration row. -/
def configTriple (r : LLMConfigRow) : String × String × String :=
  (r.provider, r.model_name, r.task_type)

/-- Insertion sort on `priority`, modelling `order_by(priority)`. -/
def insertByPriority (c : LLMConfigRow) :
    List LLMConfigRow → List LLMConfigRow
  | [] => [c]
  | x :: xs =>
    if c.priority ≤ x.priority then c :: x :: xs else x :: insertByPriority c xs

def sortByPriority : List LLMConfigRow → List LLMConfigRow
  | [] => []
  | x :: xs => insertByPriority x (sortByPriority xs)

/-- `get_llm_configurations` from `src/utils/database.py` (lines 187-205):
active rows, optionally filtered by task type, ordered by priority. -/
def get_llm_configurations (db : List LLMConfigRow) (task_type : Option String) :
    List LLMConfigRow :=
  let active := db.filter (fun r => r.is_active)
  let filtered :=
    if pyTruthy task_type then
      active.filter (fun r => r.task_type == task_type.getD "")
    else active
  sortByPriority filtered

/-- `save_llm_configuration` from `src/utils/database.py` (lines 208-256):
update priority/parameters/created_by of the row with the same triple, or
insert a fresh row (whose `is_active` defaults to true). -/
def save_llm_configuration (db : List LLMConfigRow) (nextId : Nat)
    (provider model_name task_type : String) (priority : Nat)
    (parameters : LLMParams) (created_by : Nat) :
    (List LLMConfigRow × Nat) × Bool :=
  match db.find? (tripleMatches provider model_name task_type) with
  | some _ =>
    ((updateFirst (tripleMatches provider model_name task_type)
        (fun c =>
          { c with
            priority := priority, parameters := parameters,
            created_by := created_by }) db, nextId), true)
  | none =>
    ((db ++ [⟨nextId, provider, model_name, task_type, priority, parameters,
        true, created_by⟩], nextId + 1), true)

theorem mem_insertByPriority {a c : LLMConfigRow} {l : List LLMConfigRow} :
    a ∈ insertByPriority c l ↔ a = c ∨ a ∈ l := by
  induction l with
  | nil => simp [insertByPriority]
  | cons x xs ih =>
    by_cases hp : c.priority ≤ x.priority
    · simp [insertByPriority, hp]
    · simp [insertByPriority, hp, ih]
      tauto

theorem mem_sortByPriority {a : LLMConfigRow} {l : List LLMConfigRow} :
    a ∈ sortByPriority l ↔ a ∈ l := by
  induction l with
  | nil => simp [sortByPriority]
  | cons x xs ih => simp [sortByPriority, mem_insertByPriority, ih]

/-- Everything returned by `get_llm_configurations` is an active row. -/
theorem active_of_mem_get (r : LLMConfigRow) (db : List LLMConfigRow)
    (t : Option String) (h : r ∈ get_llm_configurations db t) :
    r.is_active = true := by
  unfold get_llm_configurations at h
  by_cases hp : pyTruthy t <;>
    simp [hp, mem_sortByPriority, List.mem_filter] at h <;> tauto

/-- C4: seeding the default LLM configurations from an empty table is
idempotent, the result carries exactly the nine fixed (provider, model_name,
task_type) triples in order, and those triples are pairwise distinct. -/
theorem C4_init_default_llm_configs_idempotent (nextId admin_id : Nat) :
    (init_default_llm_configs
        (init_default_llm_configs [] nextId admin_id).1
        (init_default_llm_configs [] nextId admin_id).2 admin_id
      = init_default_llm_configs [] nextId admin_id)
    ∧ ((init_default_llm_configs [] nextId admin_id).1.map configTriple
        = default_configs.map (fun c => (c.provider, c.model_name, c.task_type)))
    ∧ ((init_default_llm_configs [] nextId admin_id).1.map configTriple).Nodup := by
  have h0 : init_default_llm_configs [] nextId admin_id
      = (seedRows nextId admin_id, nextId + 9) := rfl
  have h1 : init_default_llm_configs (seedRows nextId admin_id)
      (nextId + 9) admin_id = (seedRows nextId admin_id, nextId + 9) := rfl
  have h2 : (seedRows nextId admin_id).map configTriple
      = default_configs.map (fun c => (c.provider, c.model_name, c.task_type)) := rfl
  refine ⟨?_, ?_, ?_⟩
  · rw [h0]
    exact h1.trans h0.symm
  · rw [h0]
    exact h2
  · rw [h0, h2]
    decide

/-- C9: saving over an existing (provider, model_name, task_type) triple
succeeds, rewrites only priority, parameters and created_by of that row, and
leaves `is_active` untouched; hence a deactivated row stays inactive and is
absent from every `get_llm_configurations` result. -/
theorem C9_save_llm_configuration_preserves_is_active
    (db : List LLMConfigRow) (nextId : Nat) (provider model task : String)
    (priority : Nat) (params : LLMParams) (created_by : Nat) (c : LLMConfigRow)
    (h : db.find? (tripleMatches provider model task) = some c) :
    ((save_llm_configuration db nextId provider model task priority params
        created_by).2 = true)
    ∧ ((save_llm_configuration db nextId provider model task priority params
          created_by).1.1.find? (tripleMatches provider model task)
        = some { c with
                 priority := priority, parameters := params,
                 created_by := created_by })
    ∧ ({ c with
         priority := priority, parameters := params,
         created_by := created_by } : LLMConfigRow).is_active = c.is_active
    ∧ (c.is_active = false → ∀ t r,
        r ∈ get_llm_configurations
            (save_llm_configuration db nextId provider model task priority
              params created_by).1.1 t →
        r ≠ { c with
              priority := priority, parameters := params,
              created_by := created_by }) := by
  have hs : save_llm_configuration db nextId provider model task priority
      params created_by
      = ((updateFirst (tripleMatches provider model task)
          (fun c2 =>
            { c2 with
              priority := priority, parameters := params,
              created_by := created_by }) db, nextId), true) := by
    simp [save_llm_configuration, h]
  have hpu : tripleMatches provider model task c = true := List.find?_some h
  refine ⟨by rw [hs], ?_, rfl, ?_⟩
  · rw [hs]
    exact find?_updateFirst _ _ db c h hpu
  · intro hfalse t r hr heq
    have ha := active_of_mem_get r _ t hr
    have hb : c.is_active = true := by
      rw [heq] at ha
      exact ha
    rw [hfalse] at hb
    cases hb

/-- Witness for C9: updating over a deactivated row keeps it inactive. -/
theorem C9_witness :
    ((save_llm_configuration
        [⟨1, "openai", "gpt-4", "code_generation", 1, ⟨1/2, 100⟩, false, 1⟩]
        2 "openai" "gpt-4" "code_generation" 5 ⟨1/4, 200⟩ 9).1.1.find?
      (tripleMatches "openai" "gpt-4" "code_generation"))
    = some ⟨1, "openai", "gpt-4", "code_generation", 5, ⟨1/4, 200⟩, false, 9⟩ := by
  have h := C9_save_llm_configuration_preserves_is_active
    [⟨1, "openai", "gpt-4", "code_generation", 1, ⟨1/2, 100⟩, false, 1⟩]
    2 "openai" "gpt-4" "code_generation" 5 ⟨1/4, 200⟩ 9
    ⟨1, "openai", "gpt-4", "code_generation", 1, ⟨1/2, 100⟩, false, 1⟩
    (by rfl)
  exact h.2.1

/-! ## `src/utils/database.py`: research tasks -/

/-- A row of the `research_tasks` table (`src/database/models.py`,
class `ResearchTask`).  The JSON `result` payload is kept abstract as a
string, timestamps as naturals. -/
structure ResearchTaskRow where
  id : Nat
  user_id : Nat
  task_type : String
  input_type : String
  input_data : String
  status : String
  result : Option String
  error_message : Option String
  processing_time : Option ℚ
  tokens_used : Option Nat
  created_at : Nat
  completed_at : Option Nat
deriving DecidableEq

/-- The field mutations performed by `update_research_task` on the found
row.  `if status:` and `if error_message:` are Python truthiness tests,
`result`/`processing_time`/`tokens_used` use `is not None`; setting status
to `completed` additionally stamps `completed_at` with the current time. -/
def applyTaskUpdate (now : Nat) (status result error_message : Option String)
    (processing_time : Option ℚ) (tokens_used : Option Nat)
    (t : ResearchTaskRow) : ResearchTaskRow :=
  let t1 := if pyTruthy status then { t with status := status.getD t.status } else t
  let t2 := match result with
    | some r => { t1 with result := some r }
    | none => t1
  let t3 := if pyTruthy error_message then
      { t2 with error_message := error_message } else t2
  let t4 := match processing_time with
    | some q => { t3 with processing_time := some q }
    | none => t3
  let t5 := match tokens_used with
    | some k => { t4 with tokens_used := some k }
    | none => t4
  if status = some "completed" then { t5 with completed_at := some now } else t5

/-- `update_research_task` from `src/utils/database.py` (lines 318-360). -/
def update_research_task (db : List ResearchTaskRow) (now : Nat)
    (task_id : Nat) (status result error_message : Option String)
    (processing_time : Option ℚ) (tokens_used : Option Nat) :
    List ResearchTaskRow × Bool :=
  match db.find? (fun t => t.id == task_id) with
  | none => (db, false)
  | some _ =>
    (updateFirst (fun t => t.id == task_id)
      (applyTaskUpdate now status result error_message processing_time
        tokens_used) db, true)

/-- C6: updating an existing research task touches exactly the supplied
subset of fields.  Supplying status `completed` with a result and a
processing time leaves the row completed with a freshly stamped
`completed_at`; supplying only a (nonempty) error message on a row in
`processing` status populates `error_message` and leaves the status (and
every other field) unchanged. -/
theorem C6_update_research_task (db : List ResearchTaskRow) (now task_id : Nat)
    (t : ResearchTaskRow) (h : db.find? (fun r => r.id == task_id) = some t) :
    (∀ res ptime,
      (update_research_task db now task_id (some "completed") (some res) none
          (some ptime) none).2 = true
      ∧ (update_research_task db now task_id (some "completed") (some res) none
            (some ptime) none).1.find? (fun r => r.id == task_id)
          = some { t with
                   status := "completed", result := some res,
                   processing_time := some ptime, completed_at := some now })
    ∧ (∀ e, e ≠ "" → t.status = "processing" →
      (update_research_task db now task_id none none (some e) none none).2 = true
      ∧ (update_research_task db now task_id none none (some e) none
            none).1.find? (fun r => r.id == task_id)
          = some { t with error_message := some e }) := by
  have hpu : (t.id == task_id) = true := by simpa using List.find?_some h
  constructor
  · intro res ptime
    have hu : update_research_task db now task_id (some "completed") (some res)
        none (some ptime) none
        = (updateFirst (fun r => r.id == task_id)
            (applyTaskUpdate now (some "completed") (some res) none
              (some ptime) none) db, true) := by
      simp [update_research_task, h]
    refine ⟨by rw [hu], ?_⟩
    rw [hu]
    have happ : applyTaskUpdate now (some "completed") (some res) none
        (some ptime) none t
        = { t with
            status := "completed", result := some res,
            processing_time := some ptime, completed_at := some now } := by
      simp [applyTaskUpdate, pyTruthy]
    rw [show (updateFirst (fun r => r.id == task_id)
        (applyTaskUpdate now (some "completed") (some res) none (some ptime)
          none) db).find? (fun r => r.id == task_id)
        = some (applyTaskUpdate now (some "completed") (some res) none
            (some ptime) none t)
      from find?_updateFirst _ _ db t h hpu]
    rw [happ]
  · intro e he hst
    have hu : update_research_task db now task_id none none (some e) none none
        = (updateFirst (fun r => r.id == task_id)
            (applyTaskUpdate now none none (some e) none none) db, true) := by
      simp [update_research_task, h]
    refine ⟨by rw [hu], ?_⟩
    rw [hu]
    have happ : applyTaskUpdate now none none (some e) none none t
        = { t with error_message := some e } := by
      simp [applyTaskUpdate, pyTruthy, he]
    have hf : ((applyTaskUpdate now none none (some e) none none t).id
        == task_id) = true := by
      rw [happ]
      exact hpu
    rw [show (updateFirst (fun r => r.id == task_id)
        (applyTaskUpdate now none none (some e) none none) db).find?
          (fun r => r.id == task_id)
        = some (applyTaskUpdate now none none (some e) none none t)
      from find?_updateFirst _ _ db t h hf]
    rw [happ]

/-- Witness for C6: completing a concrete pending task stamps
`completed_at` and sets the status. -/
theorem C6_witness :
    (update_research_task
        [⟨3, 1, "paper2code", "text", "data", "pending", none, none, none,
          none, 50, none⟩] 99 3 (some "completed") (some "out") none
        (some 2) none).1.find? (fun r => r.id == 3)
      = some ⟨3, 1, "paper2code", "text", "data", "completed", some "out",
          none, some 2, none, 50, some 99⟩ := by
  have h := (C6_update_research_task
    [⟨3, 1, "paper2code", "text", "data", "pending", none, none, none,
      none, 50, none⟩] 99 3
    ⟨3, 1, "paper2code", "text", "data", "pending", none, none, none,
      none, 50, none⟩ (by rfl)).1 "out" 2
  exact h.2

/-! ## `src/providers`: provider factory

The factory registry (`LLMProviderFactory._providers`) holds the five
adapters defined in this repository: deepseek, gemini, openrouter, qwen,
grok.  (The openai/anthropic wrappers are registered only when the external
`mcp_agent` package imports successfully; that package is not part of the
repository.)  Adapter construction performs no network access: `__init__`
only stores the fields and runs `_validate_api_key`, which for every one of
the five adapters rejects a missing key or one shorter than 20 characters
with an `APIKeyError` whose message says "Invalid <vendor> API key". -/

inductive ProviderError where
  | valueError (msg : String)
  | apiKeyError (msg : String)
deriving DecidableEq

/-- A successfully constructed adapter: the state `LLMProvider.__init__`
stores before `generate` is ever called. -/
structure ProviderInstance where
  provider : String
  api_key : String
  model_name : String
deriving DecidableEq

def factoryProviders : List String :=
  ["deepseek", "gemini", "openrouter", "qwen", "grok"]

def factoryDefaultModels : List (String × String) :=
  [("deepseek", "deepseek-coder"), ("gemini", "gemini-pro"),
   ("openrouter", "meta-llama/llama-2-70b-chat"), ("qwen", "qwen-turbo"),
   ("grok", "grok-1")]

def lookupDefaultModel (name : String) : Option String :=
  (factoryDefaultModels.find? (fun p => p.1 == name)).map (fun p => p.2)

/-- The `APIKeyError` message raised by each adapter's `_validate_api_key`. -/
def keyErrorMessage (name : String) : String :=
  if name = "deepseek" then "Invalid DeepSeek API key"
  else if name = "gemini" then "Invalid Google AI API key"
  else if name = "openrouter" then "Invalid OpenRouter API key"
  else if name = "qwen" then "Invalid Qwen API key"
  else "Invalid xAI API key"

/-- Constructing a registered adapter: every one of the five adapters
raises `APIKeyError` when the key is missing or shorter than 20 chars. -/
def construct_adapter (name api_key model_name : String) :
    Except ProviderError ProviderInstance :=
  if api_key.length < 20 then .error (.apiKeyError (keyErrorMessage name))
  else .ok ⟨name, api_key, model_name⟩

/-- Python `sub in s` on character lists. -/
def charsContainsSub (s sub : List Char) : Bool :=
  (List.range (s.length + 1)).any (fun i => (s.drop i).take sub.length == sub)

def strContainsSub (s sub : String) : Bool :=
  charsContainsSub s.data sub.data

/-- A single-quote character, as used in the factory's error message. -/
def quoteChar : String := "\x27"

def availableProvidersStr : String := String.intercalate ", " factoryProviders

/-- The `ValueError` message of `create_provider` for an unknown name. -/
def notFoundMsg (name : String) : String :=
  ("Provider " ++ quoteChar ++ name ++ quoteChar ++ " not found. Available: ")
    ++ availableProvidersStr

/-- `LLMProviderFactory.create_provider` from
`src/providers/provider_factory.py` (lines 40-74). -/
def create_provider (provider_name api_key : String)
    (model_name : Option String) : Except ProviderError ProviderInstance :=
  if provider_name ∈ factoryProviders then
    let model := if pyTruthy model_name then model_name.getD ""
      else (lookupDefaultModel provider_name).getD ""
    match construct_adapter provider_name api_key model with
    | .ok p => .ok p
    | .error (.apiKeyError m) =>
      if strContainsSub (strLower m) "api key" then
        .error (.apiKeyError
          (("Invalid API key for " ++ provider_name ++ ": ") ++ m))
      else .error (.apiKeyError m)
    | .error e => .error e
  else .error (.valueError (notFoundMsg provider_name))

/-- `sub` occurs inside `s`. -/
def ContainsSub (s sub : String) : Prop := ∃ a b, s = a ++ sub ++ b

theorem containsSub_notFoundMsg (name p pre post : String)
    (h : availableProvidersStr = (pre ++ p) ++ post) :
    ContainsSub (notFoundMsg name) p := by
  refine ⟨("Provider " ++ quoteChar ++ name ++ quoteChar
    ++ " not found. Available: ") ++ pre, post, ?_⟩
  rw [notFoundMsg, h]
  simp only [String.append_assoc]

/-- C7: `create_provider` on an unknown provider name yields the
invalid-input (`ValueError`) result whose message enumerates every valid
provider name; on a registered provider with a key failing the adapter's
shape check (`create_provider "deepseek" "short"`), adapter construction
itself yields an API-key error — no network call is modelled anywhere —
whose message contains the provider name. -/
theorem C7_create_provider_errors :
    (∀ name key model, name ∉ factoryProviders →
      create_provider name key model = .error (.valueError (notFoundMsg name))
      ∧ ∀ p ∈ factoryProviders, ContainsSub (notFoundMsg name) p)
    ∧ (create_provider "deepseek" "short" none
        = .error (.apiKeyError
            "Invalid API key for deepseek: Invalid DeepSeek API key")
      ∧ ContainsSub "Invalid API key for deepseek: Invalid DeepSeek API key"
          "deepseek") := by
  refine ⟨?_, ?_, ?_⟩
  · intro name key model hname
    constructor
    · simp [create_provider, hname]
    · intro p hp
      fin_cases hp
      · exact containsSub_notFoundMsg name "deepseek" ""
          ", gemini, openrouter, qwen, grok" (by decide)
      · exact containsSub_notFoundMsg name "gemini" "deepseek, "
          ", openrouter, qwen, grok" (by decide)
      · exact containsSub_notFoundMsg name "openrouter" "deepseek, gemini, "
          ", qwen, grok" (by decide)
      · exact containsSub_notFoundMsg name "qwen"
          "deepseek, gemini, openrouter, " ", grok" (by decide)
      · exact containsSub_notFoundMsg name "grok"
          "deepseek, gemini, openrouter, qwen, " "" (by decide)
  · rfl
  · exact ⟨"Invalid API key for ", ": Invalid DeepSeek API key", by decide⟩

/-- Witness for C7: a concrete unknown provider name produces the
enumerating invalid-input error. -/
theorem C7_witness :
    create_provider "nonexistent" "key" none
      = .error (.valueError (notFoundMsg "nonexistent")) :=
  (C7_create_provider_errors.1 "nonexistent" "key" none (by decide)).1

/-- The metadata dict returned by `get_provider_info`. -/
structure ProviderInfo where
  name : String
  className : String
  default_model : Option String
  available_models : List String
  description : String
deriving DecidableEq

/-- `provider_class.__name__` for each registered provider. -/
def providerClassName (n : String) : String :=
  if n = "deepseek" then "DeepSeekProvider"
  else if n = "gemini" then "GeminiProvider"
  else if n = "openrouter" then "OpenRouterProvider"
  else if n = "qwen" then "QwenProvider"
  else "GrokProvider"

/-- The `AVAILABLE_MODELS` class attribute of each registered provider. -/
def providerAvailableModels (n : String) : List String :=
  if n = "deepseek" then
    ["deepseek-coder", "deepseek-coder-33b-instruct",
     "deepseek-coder-7b-instruct", "deepseek-chat"]
  else if n = "gemini" then
    ["gemini-pro", "gemini-pro-vision", "gemini-1.5-pro", "gemini-1.5-flash"]
  else if n = "openrouter" then
    ["meta-llama/llama-2-70b-chat", "meta-llama/llama-2-13b-chat",
     "meta-llama/codellama-34b-instruct", "mistralai/mistral-7b-instruct",
     "mistralai/mixtral-8x7b-instruct", "anthropic/claude-3-haiku",
     "anthropic/claude-3-sonnet", "openai/gpt-3.5-turbo", "openai/gpt-4",
     "google/gemma-7b-it", "microsoft/wizardlm-2-8x22b",
     "qwen/qwen-72b-chat", "deepseek/deepseek-coder-33b-instruct"]
  else if n = "qwen" then
    ["qwen-turbo", "qwen-plus", "qwen-max", "qwen-max-1201",
     "qwen-72b-chat", "qwen-14b-chat", "qwen-7b-chat", "qwen-coder-plus"]
  else
    ["grok-1", "grok-1.5", "grok-1.5-vision", "grok-beta"]

/-- `provider_class.__doc__` for each registered provider. -/
def providerDocstring (n : String) : String :=
  if n = "deepseek" then "DeepSeek LLM provider"
  else if n = "gemini" then "Google Gemini LLM provider"
  else if n = "openrouter" then "OpenRouter LLM provider for accessing various models"
  else if n = "qwen" then "Qwen (Alibaba DashScope) LLM provider"
  else "Grok (xAI) LLM provider"

/-- `LLMProviderFactory.get_provider_info` from
`src/providers/provider_factory.py` (lines 76-103).  `none` models the
empty dict `{}`; the function is total (it never raises) and takes no API
key, so no adapter is constructed and no network is touched. -/
def get_provider_info (provider_name : String) : Option ProviderInfo :=
  if provider_name ∈ factoryProviders then
    some ⟨provider_name, providerClassName provider_name,
      lookupDefaultModel provider_name,
      providerAvailableModels provider_name,
      providerDocstring provider_name⟩
  else none

/-- C10: `get_provider_info` returns the empty mapping for every name not
in the registry and, for each registered provider, the full metadata
(name, class name, default model, available models, docstring) — computed
from class attributes alone, with no API key parameter in its type. -/
theorem C10_get_provider_info (name : String) :
    (name ∉ factoryProviders → get_provider_info name = none)
    ∧ get_provider_info "deepseek"
        = some ⟨"deepseek", "DeepSeekProvider", some "deepseek-coder",
            providerAvailableModels "deepseek", "DeepSeek LLM provider"⟩
    ∧ get_provider_info "gemini"
        = some ⟨"gemini", "GeminiProvider", some "gemini-pro",
            providerAvailableModels "gemini", "Google Gemini LLM provider"⟩
    ∧ get_provider_info "openrouter"
        = some ⟨"openrouter", "OpenRouterProvider",
            some "meta-llama/llama-2-70b-chat",
            providerAvailableModels "openrouter",
            "OpenRouter LLM provider for accessing various models"⟩
    ∧ get_provider_info "qwen"
        = some ⟨"qwen", "QwenProvider", some "qwen-turbo",
            providerAvailableModels "qwen",
            "Qwen (Alibaba DashScope) LLM provider"⟩
    ∧ get_provider_info "grok"
        = some ⟨"grok", "GrokProvider", some "grok-1",
            providerAvailableModels "grok", "Grok (xAI) LLM provider"⟩ := by
  refine ⟨?_, rfl, rfl, rfl, rfl, rfl⟩
  intro h
  simp [get_provider_info, h]

/-- Witness for C10: an unregistered name maps to the empty dict. -/
theorem C10_witness : get_provider_info "nosuch" = none :=
  (C10_get_provider_info "nosuch").1 (by decide)

/-! ## `src/analytics/dashboard.py`: API usage analytics

SQL aggregates (`SUM`, `AVG`, `MIN`, `MAX`) skip NULL column values and
return NULL on an empty set; the Python layer then replaces falsy results
with 0.  Timestamps are naturals; `func.date` becomes division by 86400;
float costs become exact rationals. -/

/-- A row of the `api_usage_logs` table (`src/database/models.py`,
class `ApiUsageLog`). -/
structure ApiUsageLogRow where
  id : Nat
  user_id : Nat
  provider : String
  model_name : String
  task_type : String
  request_type : String
  input_tokens : Option Nat
  output_tokens : Option Nat
  total_tokens : Option Nat
  response_time_ms : Option Nat
  success : Bool
  cost_estimate : Option ℚ
  created_at : Nat
deriving DecidableEq

/-- SQL `SUM` over a nullable integer column. -/
def sumOptNat (l : List (Option Nat)) : Option Nat :=
  match l.filterMap id with
  | [] => none
  | vs => some vs.sum

/-- SQL `AVG` over a nullable integer column. -/
def avgOptNat (l : List (Option Nat)) : Option ℚ :=
  match l.filterMap id with
  | [] => none
  | vs => some ((vs.sum : ℚ) / (vs.length : ℚ))

/-- SQL `SUM` over a nullable float column. -/
def sumOptQ (l : List (Option ℚ)) : Option ℚ :=
  match l.filterMap id with
  | [] => none
  | vs => some vs.sum

/-- SQL `AVG` over a nullable float column. -/
def avgOptQ (l : List (Option ℚ)) : Option ℚ :=
  match l.filterMap id with
  | [] => none
  | vs => some (vs.sum / (vs.length : ℚ))

/-- SQL `MIN` over a nullable integer column. -/
def minOptNat (l : List (Option Nat)) : Option Nat :=
  match l.filterMap id with
  | [] => none
  | v :: vs => some (vs.foldl Nat.min v)

/-- SQL `MAX` over a nullable integer column. -/
def maxOptNat (l : List (Option Nat)) : Option Nat :=
  match l.filterMap id with
  | [] => none
  | v :: vs => some (vs.foldl Nat.max v)

/-- `int(x) if x else 0`: NULL (and 0, which is falsy anyway) become 0. -/
def orZeroNat (o : Option Nat) : Nat :=
  match o with
  | none => 0
  | some n => n

/-- `float(x) if x else 0`. -/
def orZeroQ (o : Option ℚ) : ℚ :=
  match o with
  | none => 0
  | some q => q

/-- Insertion sort under a boolean "comes no later than" relation. -/
def insertSortedBy (le : α → α → Bool) (c : α) : List α → List α
  | [] => [c]
  | x :: xs => if le c x then c :: x :: xs else x :: insertSortedBy le c xs

def sortedBy (le : α → α → Bool) : List α → List α
  | [] => []
  | x :: xs => insertSortedBy le x (sortedBy le xs)

/-- The `summary` block of `get_api_usage_analytics`. -/
structure UsageSummary where
  total_calls : Nat
  successful_calls : Nat
  failed_calls : Nat
  success_rate : ℚ
  total_tokens : Nat
  avg_tokens_per_call : ℚ
  input_tokens : Nat
  output_tokens : Nat
  total_cost : ℚ
  avg_cost_per_call : ℚ
deriving DecidableEq

structure ProviderUsage where
  provider : String
  call_count : Nat
  total_tokens : Nat
  total_cost : ℚ
deriving DecidableEq

structure ModelUsage where
  provider : String
  model_name : String
  call_count : Nat
  total_tokens : Nat
deriving DecidableEq

structure DailyUsage where
  date : Nat
  call_count : Nat
  total_tokens : Nat
  total_cost : ℚ
deriving DecidableEq

structure ResponseTimes where
  avg_ms : ℚ
  min_ms : Nat
  max_ms : Nat
deriving DecidableEq

/-- The full return value of `get_api_usage_analytics`. -/
structure ApiUsageAnalytics where
  summary : UsageSummary
  provider_usage : List ProviderUsage
  model_usage : List ModelUsage
  daily_usage : List DailyUsage
  response_times : ResponseTimes
  date_range_days : Nat
deriving DecidableEq

/-- The body of `get_api_usage_analytics`
(`src/analytics/dashboard.py` lines 118-277), as a pure function of the
rows inside the time/user window.  The function only reads rows; it
returns a report and no modified table. -/
def analyticsOfRows (rows : List ApiUsageLogRow) (days : Nat) :
    ApiUsageAnalytics :=
  let total_calls := rows.length
  let successful_calls := (rows.filter (fun r => r.success)).length
  let costRows := rows.filter (fun r => r.cost_estimate.isSome)
  let rtRows := rows.filter (fun r => r.response_time_ms.isSome)
  let providers := (rows.map (fun r => r.provider)).eraseDups
  let models := (rows.map (fun r => (r.provider, r.model_name))).eraseDups
  let dates := (rows.map (fun r => r.created_at / 86400)).eraseDups
  { summary :=
      { total_calls := total_calls
        successful_calls := successful_calls
        failed_calls := total_calls - successful_calls
        success_rate :=
          if total_calls > 0 then
            (successful_calls : ℚ) / (total_calls : ℚ) * 100
          else 0
        total_tokens := orZeroNat (sumOptNat (rows.map (fun r => r.total_tokens)))
        avg_tokens_per_call := orZeroQ (avgOptNat (rows.map (fun r => r.total_tokens)))
        input_tokens := orZeroNat (sumOptNat (rows.map (fun r => r.input_tokens)))
        output_tokens := orZeroNat (sumOptNat (rows.map (fun r => r.output_tokens)))
        total_cost := orZeroQ (sumOptQ (costRows.map (fun r => r.cost_estimate)))
        avg_cost_per_call := orZeroQ (avgOptQ (costRows.map (fun r => r.cost_estimate))) }
    provider_usage :=
      providers.map (fun p =>
        let rs := rows.filter (fun r => r.provider == p)
        { provider := p
          call_count := rs.length
          total_tokens := orZeroNat (sumOptNat (rs.map (fun r => r.total_tokens)))
          total_cost := orZeroQ (sumOptQ (rs.map (fun r => r.cost_estimate))) })
    model_usage :=
      (sortedBy (fun a b => b.call_count ≤ a.call_count)
        (models.map (fun pm =>
          let rs := rows.filter
            (fun r => r.provider == pm.1 && r.model_name == pm.2)
          { provider := pm.1
            model_name := pm.2
            call_count := rs.length
            total_tokens := orZeroNat (sumOptNat (rs.map (fun r => r.total_tokens))) }))).take 10
    daily_usage :=
      sortedBy (fun a b => a.date ≤ b.date)
        (dates.map (fun d =>
          let rs := rows.filter (fun r => r.created_at / 86400 == d)
          { date := d
            call_count := rs.length
            total_tokens := orZeroNat (sumOptNat (rs.map (fun r => r.total_tokens)))
            total_cost := orZeroQ (sumOptQ (rs.map (fun r => r.cost_estimate))) }))
    response_times :=
      { avg_ms := orZeroQ (avgOptNat (rtRows.map (fun r => r.response_time_ms)))
        min_ms := orZeroNat (minOptNat (rtRows.map (fun r => r.response_time_ms)))
        max_ms := orZeroNat (maxOptNat (rtRows.map (fun r => r.response_time_ms))) }
    date_range_days := days }

/-- Python truthiness of the optional `user_id` argument. -/
def pyTruthyNat (o : Option Nat) : Bool :=
  match o with
  | none => false
  | some n => n != 0

/-- The window condition: `created_at >= date_filter`, plus the user filter
when a (truthy) user id was given. -/
def usageWindowFilter (user_id : Option Nat) (cutoff : Nat)
    (r : ApiUsageLogRow) : Bool :=
  decide (cutoff ≤ r.created_at)
    && (if pyTruthyNat user_id then r.user_id == user_id.getD 0 else true)

/-- `get_api_usage_analytics` from `src/analytics/dashboard.py`
(lines 118-277). -/
def get_api_usage_analytics (db : List ApiUsageLogRow) (user_id : Option Nat)
    (cutoff days : Nat) : ApiUsageAnalytics :=
  analyticsOfRows (db.filter (usageWindowFilter user_id cutoff)) days

/-- The documented zero/empty default report. -/
def emptyAnalytics (days : Nat) : ApiUsageAnalytics :=
  { summary := ⟨0, 0, 0, 0, 0, 0, 0, 0, 0, 0⟩
    provider_usage := []
    model_usage := []
    daily_usage := []
    response_times := ⟨0, 0, 0⟩
    date_range_days := days }

/-- C8: on a window containing zero rows, `get_api_usage_analytics` returns
exactly the zero/empty default report — in particular `success_rate = 0`
(the division is guarded by the `total_calls > 0` test) and
`total_cost = 0` — and, being a pure function of the rows, mutates
nothing. -/
theorem C8_get_api_usage_analytics_empty (db : List ApiUsageLogRow)
    (user_id : Option Nat) (cutoff days : Nat)
    (h : db.filter (usageWindowFilter user_id cutoff) = []) :
    get_api_usage_analytics db user_id cutoff days = emptyAnalytics days
    ∧ (get_api_usage_analytics db user_id cutoff days).summary.success_rate = 0
    ∧ (get_api_usage_analytics db user_id cutoff days).summary.total_cost = 0 := by
  have h0 : get_api_usage_analytics db user_id cutoff days
      = analyticsOfRows [] days := by
    rw [get_api_usage_analytics, h]
  have h1 : analyticsOfRows ([] : List ApiUsageLogRow) days
      = emptyAnalytics days := rfl
  refine ⟨h0.trans h1, ?_, ?_⟩
  · rw [h0, h1]
    rfl
  · rw [h0, h1]
    rfl

/-- Witness for C8: a log row lying before the window cutoff yields the
empty report with zero success rate. -/
theorem C8_witness :
    (get_api_usage_analytics
        [⟨1, 1, "openai", "gpt-4", "code_generation", "chat", some 1, some 1,
          some 2, some 5, true, some (1/10), 100⟩]
        none 200 30).summary.success_rate = 0 := by
  have h := C8_get_api_usage_analytics_empty
    [⟨1, 1, "openai", "gpt-4", "code_generation", "chat", some 1, some 1,
      some 2, some 5, true, some (1/10), 100⟩]
    none 200 30 (by rfl)
  exact h.2.1
